import Mathlib

/-!
Verification of `client/crypto/asn1utils.c` (proxmark3): a shallow embedding
of the ASN.1 utility module — the packed-decimal integer decoder, the tag
registry with its binary-search lookup, the value formatters, the tree-dump
driver callback, and the ECDSA signature decomposer — together with theorems
settling the specification's claims about them.

Bytes are modelled as `Nat` (each `< 256` in well-formed buffers), buffers as
`List Nat`, C's `unsigned long` arithmetic as `Nat` modulo `2 ^ 64`, nullable
pointers as `Option`, and fallible operations as `Except Int`.
-/

/-- Modulus of C's 64-bit `unsigned long`, which `asn1_value_integer`
accumulates into. -/
def ulongMod : Nat := 2 ^ 64

/-- `struct tlv` (from `emv/tlv.h`), as consumed read-only by this module:
a tag code, a declared value length, and the value bytes.  In C, `value`
points at a buffer holding (at least) `len` bytes. -/
structure tlv where
  tag : Nat
  len : Nat
  value : List Nat
  deriving DecidableEq

/-- The `for (; i < end - 1; i += 2)` loop of `asn1_value_integer`.
The recursion is driven by `rem = endn - i`, the remaining nibble count;
the C guard `i < end - 1` (with `end ≥ 1` guaranteed by the caller's
`start >= end` test) holds exactly when `rem ≥ 2`, and each iteration
advances `i` by 2, i.e. shrinks `rem` by 2.  The body performs the C
statements `ret *= 10; ret += v[i/2] >> 4; ret *= 10; ret += v[i/2] & 0xf`,
each assignment wrapping at `unsigned long` width. -/
def asn1_value_integer_loop (v : List Nat) : Nat → Nat → Nat → Nat
  | rem + 2, i, ret =>
      asn1_value_integer_loop v rem (i + 2)
        (((ret * 10 % ulongMod + v.getD (i / 2) 0 / 16) % ulongMod * 10 % ulongMod
            + v.getD (i / 2) 0 % 16) % ulongMod)
  | _, _, ret => ret

/-- `asn1_value_integer(tlv, start, end)` — decodes packed decimal digits
from the nibble range `[start, end)` of the value buffer. -/
def asn1_value_integer (t : tlv) (start endn : Nat) : Nat :=
  if endn > t.len * 2 then 0
  else if start ≥ endn then 0
  else
    let ret0 := if start % 2 = 1 then t.value.getD (start / 2) 0 % 16 else 0
    let i0 := if start % 2 = 1 then start + 1 else start
    let ret1 := asn1_value_integer_loop t.value (endn - i0) i0 ret0
    if endn % 2 = 1 then (ret1 * 10 % ulongMod + t.value.getD (endn / 2) 0 / 16) % ulongMod
    else ret1

/-- The byte indices read by the loop of `asn1_value_integer`, in order
(same recursion structure as `asn1_value_integer_loop`; each iteration
reads `value[i/2]`). -/
def asn1_value_integer_loop_reads : Nat → Nat → List Nat
  | rem + 2, i => i / 2 :: asn1_value_integer_loop_reads rem (i + 2)
  | _, _ => []

/-- The byte indices of `t.value` read by `asn1_value_integer t start endn`,
in order: nothing when a guard fires; otherwise the odd-`start` read, the
loop reads, and the odd-`endn` trailing read. -/
def asn1_value_integer_reads (t : tlv) (start endn : Nat) : List Nat :=
  if endn > t.len * 2 then []
  else if start ≥ endn then []
  else
    (if start % 2 = 1 then [start / 2] else []) ++
    asn1_value_integer_loop_reads (endn - (if start % 2 = 1 then start + 1 else start))
      (if start % 2 = 1 then start + 1 else start) ++
    (if endn % 2 = 1 then [endn / 2] else [])

/-- Nibble `i` of a byte buffer: the high nibble of byte `i/2` when `i` is
even, the low nibble when `i` is odd. -/
def nibbleAt (v : List Nat) (i : Nat) : Nat :=
  if i % 2 = 0 then v.getD (i / 2) 0 / 16 else v.getD (i / 2) 0 % 16

/-- The fold step of the packed-decimal accumulation:
`result = (result * 10 + digit) mod 2^64`. -/
def pdStep (a d : Nat) : Nat := (a * 10 + d) % ulongMod

/-- The specification's description of the packed-decimal decoder: under the
same guards, fold `result = (result * 10 + digit) mod 2^64` over the nibbles
of the range `[start, endn)`. -/
def decode_packed_decimal (t : tlv) (start endn : Nat) : Nat :=
  if endn > t.len * 2 then 0
  else if start ≥ endn then 0
  else ((List.range' start (endn - start)).map (nibbleAt t.value)).foldl pdStep 0

theorem asn1_value_integer_loop_eq (v : List Nat) :
    ∀ (rem i ret : Nat), i % 2 = 0 →
    asn1_value_integer_loop v rem i ret =
      ((List.range' i (2 * (rem / 2))).map (nibbleAt v)).foldl pdStep ret
  | 0, i, ret => by
      intro _
      simp [asn1_value_integer_loop]
  | 1, i, ret => by
      intro _
      simp [asn1_value_integer_loop]
  | rem + 2, i, ret => by
      intro hi
      have h2 : (i + 2) % 2 = 0 := by omega
      rw [asn1_value_integer_loop,
        asn1_value_integer_loop_eq v rem (i + 2) _ h2,
        show 2 * ((rem + 2) / 2) = 2 * (rem / 2) + 1 + 1 by omega,
        List.range'_succ, List.range'_succ]
      simp only [List.map_cons, List.foldl_cons]
      congr 1
      have hlow : (i + 1) % 2 = 1 := by omega
      have hdiv : (i + 1) / 2 = i / 2 := by omega
      simp only [pdStep, nibbleAt, if_pos hi, hlow, hdiv]
      norm_num
      conv_rhs => rw [Nat.add_mod, Nat.mod_mul_mod, ← Nat.add_mod]

theorem pdStep_head (v : List Nat) (s : Nat) (hs : s % 2 = 1) :
    pdStep 0 (nibbleAt v s) = v.getD (s / 2) 0 % 16 := by
  have h0 : ¬ s % 2 = 0 := by omega
  simp only [pdStep, nibbleAt, if_neg h0, Nat.zero_mul, Nat.zero_add]
  exact Nat.mod_eq_of_lt (lt_trans (Nat.mod_lt _ (by norm_num)) (by norm_num [ulongMod]))

theorem pdStep_trailing (v : List Nat) (F e : Nat) (he : e % 2 = 1) :
    (F * 10 % ulongMod + v.getD (e / 2) 0 / 16) % ulongMod = pdStep F (nibbleAt v (e - 1)) := by
  have h1 : (e - 1) % 2 = 0 := by omega
  have h2 : (e - 1) / 2 = e / 2 := by omega
  simp only [pdStep, nibbleAt, if_pos h1, h2, Nat.mod_add_mod]

theorem asn1_value_integer_eq_spec (t : tlv) (s e : Nat) :
    asn1_value_integer t s e = decode_packed_decimal t s e := by
  unfold asn1_value_integer decode_packed_decimal
  by_cases h1 : e > t.len * 2
  · simp [h1]
  rw [if_neg h1, if_neg h1]
  by_cases h2 : s ≥ e
  · rw [if_pos h2, if_pos h2]
  rw [if_neg h2, if_neg h2]
  by_cases hs : s % 2 = 1
  · simp only [if_pos hs]
    rw [asn1_value_integer_loop_eq t.value (e - (s + 1)) (s + 1) _ (by omega)]
    conv_rhs => rw [show e - s = (e - s - 1) + 1 by omega, List.range'_succ]
    simp only [List.map_cons, List.foldl_cons]
    rw [pdStep_head t.value s hs]
    by_cases he : e % 2 = 1
    · rw [if_pos he]
      conv_rhs => rw [show e - s - 1 = 1 + 2 * ((e - (s + 1)) / 2) by omega,
        ← List.range'_append]
      rw [List.map_append, List.foldl_append]
      simp only [List.range'_one, List.map_cons, List.map_nil, List.foldl_cons,
        List.foldl_nil, Nat.one_mul]
      rw [show s + 1 + 2 * ((e - (s + 1)) / 2) = e - 1 by omega]
      exact pdStep_trailing t.value _ e he
    · rw [if_neg he]
      conv_rhs => rw [show e - s - 1 = 2 * ((e - (s + 1)) / 2) by omega]
  · simp only [if_neg hs]
    rw [asn1_value_integer_loop_eq t.value (e - s) s _ (by omega)]
    by_cases he : e % 2 = 1
    · rw [if_pos he]
      conv_rhs => rw [show e - s = 1 + 2 * ((e - s) / 2) by omega,
        ← List.range'_append]
      rw [List.map_append, List.foldl_append]
      simp only [List.range'_one, List.map_cons, List.map_nil, List.foldl_cons,
        List.foldl_nil, Nat.one_mul]
      rw [show s + 2 * ((e - s) / 2) = e - 1 by omega]
      exact pdStep_trailing t.value _ e he
    · rw [if_neg he]
      conv_rhs => rw [show e - s = 2 * ((e - s) / 2) by omega]

theorem asn1_value_integer_loop_reads_bound :
    ∀ (rem i : Nat), ∀ j ∈ asn1_value_integer_loop_reads rem i, 2 * j + 1 < i + rem
  | rem + 2, i => by
      intro j hj
      simp only [asn1_value_integer_loop_reads, List.mem_cons] at hj
      rcases hj with h | h
      · omega
      · have := asn1_value_integer_loop_reads_bound rem (i + 2) j h
        omega
  | 0, i => by
      intro j hj
      simp [asn1_value_integer_loop_reads] at hj
  | 1, i => by
      intro j hj
      simp [asn1_value_integer_loop_reads] at hj

/-- C4: `asn1_value_integer` decodes packed decimal digits over the nibble
range `[start, end)`: it agrees everywhere with the specification's
nibble-sequence fold `decode_packed_decimal` (low nibble first when `start`
is odd, then high/low pairs accumulated as `result = result*10 + digit`,
then one trailing high nibble when `end` is odd); in particular on bytes
`[0x12, 0x34]` with `start = 0`, `end = 4` it returns `1234`. -/
theorem claim_C4 :
    (∀ (t : tlv) (start endn : Nat),
      asn1_value_integer t start endn = decode_packed_decimal t start endn)
    ∧ asn1_value_integer ⟨0x02, 2, [0x12, 0x34]⟩ 0 4 = 1234 :=
  ⟨asn1_value_integer_eq_spec, by decide⟩

/-- C5: when `end > 2 * len` or `start ≥ end`, `asn1_value_integer` returns
`0` and reads no byte of the value at all; and on every input, every byte
index it reads lies strictly below the value's declared length `len`. -/
theorem claim_C5 :
    ∀ (t : tlv) (start endn : Nat),
      ((endn > t.len * 2 ∨ start ≥ endn) →
        asn1_value_integer t start endn = 0 ∧ asn1_value_integer_reads t start endn = [])
      ∧ ∀ j ∈ asn1_value_integer_reads t start endn, j < t.len := by
  intro t s e
  constructor
  · intro h
    by_cases hg1 : e > t.len * 2
    · constructor <;> simp [asn1_value_integer, asn1_value_integer_reads, hg1]
    · have hg2 : s ≥ e := by tauto
      constructor <;> simp [asn1_value_integer, asn1_value_integer_reads, hg1, hg2]
  · intro j hj
    by_cases hg1 : e > t.len * 2
    · simp [asn1_value_integer_reads, hg1] at hj
    by_cases hg2 : s ≥ e
    · simp [asn1_value_integer_reads, hg1, hg2] at hj
    simp only [asn1_value_integer_reads, if_neg hg1, if_neg hg2, List.append_assoc,
      List.mem_append] at hj
    rcases hj with hj | hj | hj
    · by_cases hs : s % 2 = 1 <;> simp [hs] at hj
      omega
    · have hb := asn1_value_integer_loop_reads_bound _ _ j hj
      by_cases hs : s % 2 = 1 <;> simp [hs] at hb <;> omega
    · by_cases he : e % 2 = 1 <;> simp [he] at hj
      omega

/-- Witness for C5: a concrete guard violation (`end = 5 > 2 * len = 2`)
returns `0` with no reads, and a concrete in-bounds read index satisfies
the bound. -/
theorem claim_C5_witness :
    (asn1_value_integer ⟨0x02, 1, [0x12]⟩ 0 5 = 0
      ∧ asn1_value_integer_reads ⟨0x02, 1, [0x12]⟩ 0 5 = [])
    ∧ (0 : Nat) < 2 :=
  ⟨(claim_C5 ⟨0x02, 1, [0x12]⟩ 0 5).1 (Or.inl (by decide)),
   (claim_C5 ⟨0x02, 2, [0x12, 0x34]⟩ 0 4).2 0 (by decide)⟩

/-- `enum asn1_tag_t` — the semantic category of a registry entry.
Entries of the C literal table that omit the field get the
zero-initialized value `ASN1_TAG_GENERIC`. -/
inductive asn1_tag_t where
  | GENERIC
  | BOOLEAN
  | INTEGER
  | STRING
  | UTC_TIME
  | OBJECT_ID
  deriving DecidableEq

/-- `struct asn1_tag` — a registry entry.  The C struct's `data` field is
omitted: it is never initialized nor read anywhere in the module. -/
structure asn1_tag where
  tag : Nat
  name : String
  type : asn1_tag_t
  deriving DecidableEq

/-- The static `asn1_tags[]` table, in its source order. -/
def asn1_tags : List asn1_tag := [
  ⟨0x00, "Unknown ???", .GENERIC⟩,
  ⟨0x01, "BOOLEAN", .BOOLEAN⟩,
  ⟨0x02, "INTEGER", .INTEGER⟩,
  ⟨0x03, "BIT STRING", .GENERIC⟩,
  ⟨0x04, "OCTET STRING", .GENERIC⟩,
  ⟨0x05, "NULL", .GENERIC⟩,
  ⟨0x06, "OBJECT IDENTIFIER", .OBJECT_ID⟩,
  ⟨0x0C, "UTF8String", .STRING⟩,
  ⟨0x10, "SEQUENCE", .GENERIC⟩,
  ⟨0x11, "SET", .GENERIC⟩,
  ⟨0x13, "PrintableString", .STRING⟩,
  ⟨0x14, "T61String", .STRING⟩,
  ⟨0x16, "IA5String", .STRING⟩,
  ⟨0x17, "UTCTime", .UTC_TIME⟩,
  ⟨0x18, "GeneralizedTime", .UTC_TIME⟩,
  ⟨0x30, "SEQUENCE", .GENERIC⟩,
  ⟨0x31, "SET", .GENERIC⟩,
  ⟨0xa0, "[0]", .GENERIC⟩,
  ⟨0xa1, "[1]", .GENERIC⟩,
  ⟨0xa2, "[2]", .GENERIC⟩,
  ⟨0xa3, "[3]", .GENERIC⟩,
  ⟨0xa4, "[4]", .GENERIC⟩,
  ⟨0xa5, "[5]", .GENERIC⟩]

/-- `asn1_sort_tag` — the rank a tag code is compared under: codes below
`0x100` are left-shifted by 8 bits (`tag << 8 = tag * 256`). -/
def asn1_sort_tag (tag : Nat) : Int :=
  if 0x100 ≤ tag then (tag : Int) else ((tag * 256 : Nat) : Int)

/-- `asn1_tlv_compare` — the `bsearch` comparator: the signed difference of
the ranks of the looked-up tlv's tag (the key) and a table entry's tag. -/
def asn1_tlv_compare (t : tlv) (e : asn1_tag) : Int :=
  asn1_sort_tag t.tag - asn1_sort_tag e.tag

/-- The C library `bsearch` over `asn1_tags`, specialized to the comparator
`asn1_tlv_compare`: classic halving search on the index interval
`[lo, hi)`, returning the probed entry when the comparator answers `0` and
`none` when the interval empties.  The `fuel` argument only bounds the
recursion; `asn1_tags.length` iterations are more than enough since the
interval strictly shrinks each step. -/
def bsearch_loop (t : tlv) : Nat → Nat → Nat → Option asn1_tag
  | 0, _, _ => none
  | fuel + 1, lo, hi =>
    if lo < hi then
      let idx := (lo + hi) / 2
      let e := asn1_tags.getD idx ⟨0, "", .GENERIC⟩
      let c := asn1_tlv_compare t e
      if c < 0 then bsearch_loop t fuel lo idx
      else if 0 < c then bsearch_loop t fuel (idx + 1) hi
      else some e
    else none

/-- `asn1_get_tag` — registry lookup: `bsearch` over the whole table, and
the sentinel `&asn1_tags[0]` when nothing matched. -/
def asn1_get_tag (t : tlv) : asn1_tag :=
  match bsearch_loop t asn1_tags.length 0 asn1_tags.length with
  | some e => e
  | none => asn1_tags.getD 0 ⟨0, "", .GENERIC⟩

theorem bsearch_loop_tag_only (t t' : tlv) (h : t.tag = t'.tag) :
    ∀ (fuel lo hi : Nat), bsearch_loop t fuel lo hi = bsearch_loop t' fuel lo hi
  | 0, _, _ => rfl
  | fuel + 1, lo, hi => by
      simp only [bsearch_loop, asn1_tlv_compare, h]
      split
      · split
        · exact bsearch_loop_tag_only t t' h fuel lo _
        · split
          · exact bsearch_loop_tag_only t t' h fuel _ hi
          · rfl
      · rfl

theorem bsearch_loop_some (t : tlv) :
    ∀ (fuel lo hi : Nat), hi ≤ asn1_tags.length →
      ∀ e, bsearch_loop t fuel lo hi = some e →
      e ∈ asn1_tags ∧ asn1_sort_tag e.tag = asn1_sort_tag t.tag
  | 0, lo, hi => by
      intro _ e he
      simp [bsearch_loop] at he
  | fuel + 1, lo, hi => by
      intro hhi e he
      rw [bsearch_loop] at he
      dsimp only at he
      split at he
      · next hlt =>
        split at he
        · exact bsearch_loop_some t fuel lo _ (by omega) e he
        · split at he
          · exact bsearch_loop_some t fuel _ hi hhi e he
          · next hc1 hc2 =>
            have hidx : (lo + hi) / 2 < asn1_tags.length := by omega
            have hc : asn1_tlv_compare t (asn1_tags.getD ((lo + hi) / 2) ⟨0, "", .GENERIC⟩) = 0 := by
              omega
            rw [Option.some_inj] at he
            subst he
            constructor
            · rw [List.getD_eq_getElem _ _ hidx]
              exact List.getElem_mem hidx
            · simp only [asn1_tlv_compare] at hc
              omega
      · simp at he

/-- C6 (amended): `asn1_get_tag` is total and deterministic; for every tag
code present in `asn1_tags` it returns the entry with that code, and for
every code whose rank (`asn1_sort_tag`) differs from every table entry's
rank it returns the sentinel entry `asn1_tags[0]`.  (Absent codes whose
rank collides with a table entry's rank — `code ≥ 0x100` equal to a table
code shifted left by 8 — return that colliding entry instead of the
sentinel; see the counterexample.) -/
theorem claim_C6 :
    (∀ e ∈ asn1_tags, ∀ t : tlv, t.tag = e.tag → asn1_get_tag t = e)
    ∧ (∀ t : tlv, (∀ e ∈ asn1_tags, asn1_sort_tag e.tag ≠ asn1_sort_tag t.tag) →
        asn1_get_tag t = asn1_tags.getD 0 ⟨0, "", .GENERIC⟩) := by
  constructor
  · intro e he t ht
    have hkey : asn1_get_tag t = asn1_get_tag ⟨e.tag, 0, []⟩ := by
      unfold asn1_get_tag
      rw [bsearch_loop_tag_only t ⟨e.tag, 0, []⟩ ht]
    rw [hkey]
    clear hkey ht t
    revert he
    revert e
    decide
  · intro t habs
    unfold asn1_get_tag
    rcases hb : bsearch_loop t asn1_tags.length 0 asn1_tags.length with _ | e
    · rfl
    · exfalso
      obtain ⟨hm, hs⟩ := bsearch_loop_some t _ 0 _ le_rfl e hb
      exact habs e hm hs

/-- Counterexample for C6 as stated: the code `0x200` is absent from the
table, yet lookup returns the `INTEGER` entry (whose code `0x02` shifts to
the same rank `0x200`), not the sentinel. -/
theorem claim_C6_counterexample :
    asn1_get_tag ⟨0x200, 0, []⟩ = ⟨0x02, "INTEGER", .INTEGER⟩
    ∧ (∀ e ∈ asn1_tags, e.tag ≠ 0x200)
    ∧ asn1_get_tag ⟨0x200, 0, []⟩ ≠ asn1_tags.getD 0 ⟨0, "", .GENERIC⟩ := by decide

/-- Witness for C6: a present code (`0x02`) resolves to its entry, and an
absent, non-colliding code (`0x07`) resolves to the sentinel. -/
theorem claim_C6_witness :
    asn1_get_tag ⟨0x02, 7, [1, 2, 3]⟩ = ⟨0x02, "INTEGER", .INTEGER⟩
    ∧ asn1_get_tag ⟨0x07, 0, []⟩ = ⟨0x00, "Unknown ???", .GENERIC⟩ :=
  ⟨claim_C6.1 ⟨0x02, "INTEGER", .INTEGER⟩ (by decide) _ rfl,
   claim_C6.2 ⟨0x07, 0, []⟩ (by decide)⟩

/-- The `PRINT_INDENT(level)` macro: `level` copies of three spaces. -/
def PRINT_INDENT (level : Nat) : String := String.join (List.replicate level "   ")

/-- `asn1_tag_dump_str` models `asn1_tag_dump_string`: the value bytes
written verbatim between quote markers (`fwrite` of `len` bytes). -/
def asn1_tag_dump_str (t : tlv) (_level : Nat) : String :=
  "\tvalue: '" ++ String.mk ((t.value.take t.len).map Char.ofNat) ++ "'\n"

/-- `asn1_tag_dump_boolean`: indent, then `"n/a"` for an empty value, else
`"true"`/`"false"` from the first value byte.  The length is not checked
to be exactly 1. -/
def asn1_tag_dump_boolean (t : tlv) (level : Nat) : String :=
  PRINT_INDENT level ++
    (if 0 < t.len then
      "\tvalue: " ++ (if t.value.getD 0 0 ≠ 0 then "true" else "false") ++ "\n"
    else "n/a\n")

/-- `asn1_tag_dump_integer`: indent, then the packed-decimal decoding of
the full nibble range `[0, 2 * len)`. -/
def asn1_tag_dump_integer (t : tlv) (level : Nat) : String :=
  PRINT_INDENT level ++ "\tvalue: " ++ toString (asn1_value_integer t 0 (t.len * 2)) ++ "\n"

/-- Modelled from the spec: `mbedtls_oid_get_numeric_string` is not part of
this repository's sources; the spec describes it as decoding a standard
base-128 continuation-bit varint sequence per component.  This helper
accumulates continuation bytes (`≥ 0x80`) into `cur` and flushes a
component at each terminating byte. -/
def oid_components : List Nat → Nat → List Nat
  | [], _ => []
  | b :: rest, cur =>
    if b < 128 then (cur * 128 + b) :: oid_components rest 0
    else oid_components rest (cur * 128 + b % 128)

/-- Modelled from the spec: the dotted-decimal rendering of a DER-encoded
OID, with the first two components packed as `40*c0 + c1`. -/
def oid_numeric_string (bs : List Nat) : String :=
  match oid_components bs 0 with
  | [] => ""
  | c0 :: rest => String.intercalate "." (((c0 / 40) :: (c0 % 40) :: rest).map toString)

/-- `asn1_tag_dump_object_id`: indent, then the numeric OID string. -/
def asn1_tag_dump_object_id (t : tlv) (level : Nat) : String :=
  PRINT_INDENT level ++ " " ++ oid_numeric_string (t.value.take t.len) ++ "\n"

/-- One item of console output produced by the dump driver: the header line
`--%2hx[%02zx] '%s':` (kept symbolic in its fields), plain printed text, or
a `dump_buffer(value, len, level)` raw hex/ASCII dump. -/
inductive OutItem where
  | headerLine (tag : Nat) (len : Nat) (name : String)
  | txt (s : String)
  | rawDump (value : List Nat) (len : Nat) (level : Nat)
  deriving DecidableEq

/-- `asn1_tag_dump(tlv, f, level, candump)`: result is
`(return value, candump after the call, output items in order)`.  A null
node prints `"NULL"` and returns `false` without touching `candump`;
otherwise the tag is looked up, the header line printed, and the
category's renderer dispatched, setting `*candump = false` for the
`STRING`, `BOOLEAN`, `INTEGER` and `OBJECT_ID` categories. -/
def asn1_tag_dump (t : Option tlv) (level : Nat) (candump : Bool) :
    Bool × Bool × List OutItem :=
  match t with
  | none => (false, candump, [.txt "NULL\n"])
  | some tl =>
    let tag := asn1_get_tag tl
    let hdr : List OutItem := [.txt (PRINT_INDENT level), .headerLine tl.tag tl.len tag.name]
    match tag.type with
    | .GENERIC => (true, candump, hdr ++ [.txt "\n"])
    | .STRING => (true, false, hdr ++ [.txt (asn1_tag_dump_str tl level)])
    | .BOOLEAN => (true, false, hdr ++ [.txt (asn1_tag_dump_boolean tl level)])
    | .INTEGER => (true, false, hdr ++ [.txt (asn1_tag_dump_integer tl level)])
    | .UTC_TIME => (true, candump, hdr ++ [.txt "\n"])
    | .OBJECT_ID => (true, false, hdr ++ [.txt (asn1_tag_dump_object_id tl level)])

/-- `print_cb(data, tlv, level, is_leaf)` for a non-null node: sets
`candump = true`, runs `asn1_tag_dump`, and appends a
`dump_buffer(tlv->value, tlv->len, level)` raw dump exactly when the node
is a leaf and `candump` is still true; always returns `true`. -/
def print_cb (t : tlv) (level : Nat) (is_leaf : Bool) : Bool × List OutItem :=
  let r := asn1_tag_dump (some t) level true
  if is_leaf && r.2.1 then (true, r.2.2 ++ [.rawDump t.value t.len level])
  else (true, r.2.2)

/-- C7: Boolean formatting — for every node, an empty value renders
`"n/a"`, and otherwise the rendered text is `"true"` when the first value
byte is nonzero and `"false"` when it is zero, with no validation that the
length is exactly 1. -/
theorem claim_C7 :
    ∀ (t : tlv) (level : Nat),
      (t.len = 0 → asn1_tag_dump_boolean t level = PRINT_INDENT level ++ "n/a\n")
      ∧ (0 < t.len → t.value.getD 0 0 ≠ 0 →
          asn1_tag_dump_boolean t level = PRINT_INDENT level ++ "\tvalue: true\n")
      ∧ (0 < t.len → t.value.getD 0 0 = 0 →
          asn1_tag_dump_boolean t level = PRINT_INDENT level ++ "\tvalue: false\n") := by
  intro t level
  refine ⟨fun h0 => ?_, fun hl hb => ?_, fun hl hb => ?_⟩
  · simp [asn1_tag_dump_boolean, h0]
  · have hb2 : ¬ t.value[0]?.getD 0 = 0 := by simpa [List.getD] using hb
    simp [asn1_tag_dump_boolean, hl, hb2]
  · have hb2 : t.value[0]?.getD 0 = 0 := by simpa [List.getD] using hb
    simp [asn1_tag_dump_boolean, hl, hb2]

/-- Witness for C7: the spec's four concrete cases — empty value, `[0x00]`,
`[0x01]`, `[0xFF]` (the last with a lenient length of 2). -/
theorem claim_C7_witness :
    asn1_tag_dump_boolean ⟨0x01, 0, []⟩ 0 = PRINT_INDENT 0 ++ "n/a\n"
    ∧ asn1_tag_dump_boolean ⟨0x01, 1, [0x00]⟩ 0 = PRINT_INDENT 0 ++ "\tvalue: false\n"
    ∧ asn1_tag_dump_boolean ⟨0x01, 1, [0x01]⟩ 0 = PRINT_INDENT 0 ++ "\tvalue: true\n"
    ∧ asn1_tag_dump_boolean ⟨0x01, 2, [0xFF, 0x00]⟩ 0 = PRINT_INDENT 0 ++ "\tvalue: true\n" :=
  ⟨(claim_C7 ⟨0x01, 0, []⟩ 0).1 rfl,
   (claim_C7 ⟨0x01, 1, [0x00]⟩ 0).2.2 (by decide) rfl,
   (claim_C7 ⟨0x01, 1, [0x01]⟩ 0).2.1 (by decide) (by decide),
   (claim_C7 ⟨0x01, 2, [0xFF, 0x00]⟩ 0).2.1 (by decide) (by decide)⟩

/-- C8: for every non-null node, `asn1_tag_dump` leaves `candump` unchanged
exactly for the `GENERIC` and `UTC_TIME` categories and sets it to `false`
for `STRING`, `BOOLEAN`, `INTEGER` and `OBJECT_ID`; it returns `true`; and
`print_cb` emits the raw `dump_buffer` of the node's value exactly when the
node is a leaf and `candump` was left `true`. -/
theorem claim_C8 :
    ∀ (t : tlv) (level : Nat) (b : Bool) (is_leaf : Bool),
      ((asn1_tag_dump (some t) level b).2.1 =
        if (asn1_get_tag t).type = .GENERIC ∨ (asn1_get_tag t).type = .UTC_TIME then b
        else false)
      ∧ (asn1_tag_dump (some t) level b).1 = true
      ∧ (OutItem.rawDump t.value t.len level ∈ (print_cb t level is_leaf).2 ↔
          (is_leaf = true ∧
            ((asn1_get_tag t).type = .GENERIC ∨ (asn1_get_tag t).type = .UTC_TIME))) := by
  intro t level b is_leaf
  rcases h : (asn1_get_tag t).type <;> cases is_leaf <;>
    simp [asn1_tag_dump, print_cb, h]

/-- C9: called on a null node, `asn1_tag_dump` prints `"NULL"`, returns
`false`, and leaves the caller's `candump` flag unchanged; the node is
never inspected. -/
theorem claim_C9 :
    ∀ (level : Nat) (candump : Bool),
      asn1_tag_dump none level candump = (false, candump, [.txt "NULL\n"]) :=
  fun _ _ => rfl

/-- Modelled from the spec: distinct "malformed DER" failure codes of the
mbedtls ASN.1 primitives (not part of this repository's sources); negative,
mirroring the library's convention, and in any case distinct from the
`1` (null argument) and `2` (trailing data) codes returned directly by
`ecdsa_asn1_get_signature`. -/
def MBEDTLS_ERR_ASN1_OUT_OF_DATA : Int := -96

/-- Modelled from the spec: failure code for a tag byte other than the
expected one. -/
def MBEDTLS_ERR_ASN1_UNEXPECTED_TAG : Int := -98

/-- Modelled from the spec: failure code for an unsupported length
encoding. -/
def MBEDTLS_ERR_ASN1_INVALID_LENGTH : Int := -100

/-- Modelled from the spec: the capacity failure of
`mbedtls_mpi_write_binary` when the magnitude does not fit the output
buffer. -/
def MBEDTLS_ERR_MPI_BUFFER_TOO_SMALL : Int := -8

/-- Modelled from the spec: `mbedtls_asn1_get_len` — "a DER length"
prefix read at offset `p` against the exclusive bound `endIdx`: short form
(first byte `< 0x80`), or long form `0x81`/`0x82` with one or two length
bytes (longer long forms are rejected; no claim depends on them); the
declared length must fit in the remaining buffer.  Returns
`(length, position after the length)`. -/
def mbedtls_asn1_get_len (buf : List Nat) (p endIdx : Nat) : Except Int (Nat × Nat) :=
  if endIdx ≤ p then .error MBEDTLS_ERR_ASN1_OUT_OF_DATA
  else
    let b := buf.getD p 0
    if b < 0x80 then
      if endIdx - (p + 1) < b then .error MBEDTLS_ERR_ASN1_OUT_OF_DATA
      else .ok (b, p + 1)
    else if b = 0x81 then
      if endIdx - p < 2 then .error MBEDTLS_ERR_ASN1_OUT_OF_DATA
      else
        let len := buf.getD (p + 1) 0
        if endIdx - (p + 2) < len then .error MBEDTLS_ERR_ASN1_OUT_OF_DATA
        else .ok (len, p + 2)
    else if b = 0x82 then
      if endIdx - p < 3 then .error MBEDTLS_ERR_ASN1_OUT_OF_DATA
      else
        let len := buf.getD (p + 1) 0 * 256 + buf.getD (p + 2) 0
        if endIdx - (p + 3) < len then .error MBEDTLS_ERR_ASN1_OUT_OF_DATA
        else .ok (len, p + 3)
    else .error MBEDTLS_ERR_ASN1_INVALID_LENGTH

/-- Modelled from the spec: `mbedtls_asn1_get_tag` — one tag byte compared
against the expected tag, then a DER length.  The bound `endIdx` is passed
by value and is never narrowed to the element's own extent. -/
def mbedtls_asn1_get_tag (buf : List Nat) (p endIdx : Nat) (tag : Nat) :
    Except Int (Nat × Nat) :=
  if endIdx ≤ p then .error MBEDTLS_ERR_ASN1_OUT_OF_DATA
  else if buf.getD p 0 ≠ tag then .error MBEDTLS_ERR_ASN1_UNEXPECTED_TAG
  else mbedtls_asn1_get_len buf (p + 1) endIdx

/-- Big-endian bytes to an unsigned big integer (the content of
`mbedtls_mpi_read_binary`); a leading `0x00` sign-padding byte leaves the
value unchanged. -/
def bytesToNat (bs : List Nat) : Nat := bs.foldl (fun acc b => acc * 256 + b) 0

/-- Modelled from the spec: `mbedtls_asn1_get_mpi` — an `INTEGER` tag byte
`0x02`, a DER length, then that many magnitude bytes converted to an
unsigned big integer.  Returns `(value, position after the element)`. -/
def mbedtls_asn1_get_mpi (buf : List Nat) (p endIdx : Nat) : Except Int (Nat × Nat) :=
  match mbedtls_asn1_get_tag buf p endIdx 0x02 with
  | .error e => .error e
  | .ok (len, p2) => .ok (bytesToNat ((buf.drop p2).take len), p2 + len)

/-- `n`-byte big-endian encoding of `x` (low byte last). -/
def natToBytesBE : Nat → Nat → List Nat
  | _, 0 => []
  | x, n + 1 => natToBytesBE (x / 256) n ++ [x % 256]

/-- Modelled from the spec: `mbedtls_mpi_write_binary` — write the value as
exactly `buflen` big-endian, left-zero-padded bytes, failing with the
capacity error when the magnitude needs more than `buflen` bytes
(i.e. when `x ≥ 256 ^ buflen`). -/
def mbedtls_mpi_write_binary (x : Nat) (buflen : Nat) : Except Int (List Nat) :=
  if 256 ^ buflen ≤ x then .error MBEDTLS_ERR_MPI_BUFFER_TOO_SMALL
  else .ok (natToBytesBE x buflen)

/-- `ecdsa_asn1_get_signature(signature, signaturelen, rval, sval)`:
null pointers are `none`; the result is
`(return code, rval after the call, sval after the call)`.  As in the C,
`end` is `signature + signaturelen` — the end of the input buffer — and it
is this cursor, not the outer SEQUENCE's declared extent, that every parse
step is bounded by and that the final `end != p` trailing-data check (code
`2`) compares against.  The outer SEQUENCE's declared length is otherwise
unused. -/
def ecdsa_asn1_get_signature (signature : Option (List Nat)) (signaturelen : Nat)
    (rval sval : Option (List Nat)) : Int × Option (List Nat) × Option (List Nat) :=
  match signature, rval, sval with
  | some sig, some rv, some sv =>
    if signaturelen = 0 then (1, some rv, some sv)
    else
      match mbedtls_asn1_get_tag sig 0 signaturelen (0x20 + 0x10) with
      | .error res => (res, some rv, some sv)
      | .ok (_len, p) =>
        match mbedtls_asn1_get_mpi sig p signaturelen with
        | .error res => (res, some rv, some sv)
        | .ok (x, p1) =>
          match mbedtls_mpi_write_binary x 32 with
          | .error res => (res, some rv, some sv)
          | .ok rv2 =>
            match mbedtls_asn1_get_mpi sig p1 signaturelen with
            | .error res => (res, some rv2, some sv)
            | .ok (y, p2) =>
              match mbedtls_mpi_write_binary y 32 with
              | .error res => (res, some rv2, some sv)
              | .ok sv2 =>
                if signaturelen ≠ p2 then (2, some rv2, some sv2)
                else (0, some rv2, some sv2)
  | _, _, _ => (1, rval, sval)

/-- C1: on the DER encoding of `SEQUENCE{ INTEGER 1, INTEGER 2 }` — which
is unique under DER's canonical rules, namely
`30 06 02 01 01 02 01 02` — `ecdsa_asn1_get_signature` returns 0 and
writes `r` as 31 zero bytes followed by `0x01` and `s` as 31 zero bytes
followed by `0x02`, whatever the caller-supplied buffers held before. -/
theorem claim_C1 :
    ∀ (rv sv : List Nat),
      ecdsa_asn1_get_signature (some [0x30, 0x06, 0x02, 0x01, 0x01, 0x02, 0x01, 0x02]) 8
        (some rv) (some sv) =
      (0, some (List.replicate 31 0 ++ [0x01]), some (List.replicate 31 0 ++ [0x02])) :=
  fun _ _ => rfl

/-- C2 (amended): the cursor bound established by `ecdsa_asn1_get_signature`
is the end of the input buffer (`signature + signaturelen`), not
start-of-content plus the outer SEQUENCE's declared length; whenever the
outer tag and both INTEGERs parse and both fit 32 bytes, the function
returns the trailing-data code `2` exactly when the cursor has not reached
the end of the input buffer, and `0` otherwise. -/
theorem claim_C2 (buf : List Nat) (n : Nat) (rv sv : List Nat) (len p0 x p1 y p2 : Nat)
    (hn : n ≠ 0)
    (h1 : mbedtls_asn1_get_tag buf 0 n (0x20 + 0x10) = .ok (len, p0))
    (h2 : mbedtls_asn1_get_mpi buf p0 n = .ok (x, p1))
    (hx : x < 256 ^ 32)
    (h3 : mbedtls_asn1_get_mpi buf p1 n = .ok (y, p2))
    (hy : y < 256 ^ 32) :
    (ecdsa_asn1_get_signature (some buf) n (some rv) (some sv)).1 =
      if p2 = n then 0 else 2 := by
  simp only [ecdsa_asn1_get_signature, if_neg hn, h1, h2, h3, mbedtls_mpi_write_binary,
    if_neg (Nat.not_le.mpr hx), if_neg (Nat.not_le.mpr hy)]
  by_cases h : p2 = n
  · simp [h]
  · simp [h, Ne.symm h]

/-- Witness for C2 (amended): appending one extra byte after a valid
two-integer sequence yields the trailing-data failure `2`, not success. -/
theorem claim_C2_witness :
    (ecdsa_asn1_get_signature (some [0x30, 0x06, 0x02, 0x01, 0x01, 0x02, 0x01, 0x02, 0xAA]) 9
      (some (List.replicate 32 0)) (some (List.replicate 32 0))).1 = 2 := by
  simpa using claim_C2 [0x30, 0x06, 0x02, 0x01, 0x01, 0x02, 0x01, 0x02, 0xAA] 9
    (List.replicate 32 0) (List.replicate 32 0) 6 2 1 5 2 8
    (by decide) rfl rfl (by norm_num) rfl (by norm_num)

/-- Counterexample for C2 as stated: on
`30 03 02 01 01 02 01 02` the outer SEQUENCE declares length 3, so the
claimed end cursor is `2 + 3 = 5`; yet the second INTEGER is parsed from
beyond that extent, the cursor ends at `8 ≠ 5`, and the function returns
success `0` — not the trailing-data failure the claim mandates whenever
the cursor has not reached start-of-content plus the declared length. -/
theorem claim_C2_counterexample :
    mbedtls_asn1_get_tag [0x30, 0x03, 0x02, 0x01, 0x01, 0x02, 0x01, 0x02] 0 8 (0x20 + 0x10) =
      .ok (3, 2)
    ∧ mbedtls_asn1_get_mpi [0x30, 0x03, 0x02, 0x01, 0x01, 0x02, 0x01, 0x02] 5 8 = .ok (2, 8)
    ∧ (ecdsa_asn1_get_signature (some [0x30, 0x03, 0x02, 0x01, 0x01, 0x02, 0x01, 0x02]) 8
        (some (List.replicate 32 0)) (some (List.replicate 32 0))).1 = 0
    ∧ (8 : Nat) ≠ 2 + 3 :=
  ⟨rfl, rfl, rfl, by decide⟩

/-- C3: whenever a parsed INTEGER's magnitude needs more than 32 bytes
(`≥ 256^32`), `ecdsa_asn1_get_signature` returns the capacity failure of
`mbedtls_mpi_write_binary`, a non-success code — it never truncates the
value into the 32-byte output buffer. -/
theorem claim_C3 (buf : List Nat) (n : Nat) (rv sv : List Nat) (len p0 x p1 : Nat)
    (hn : n ≠ 0)
    (h1 : mbedtls_asn1_get_tag buf 0 n (0x20 + 0x10) = .ok (len, p0))
    (h2 : mbedtls_asn1_get_mpi buf p0 n = .ok (x, p1))
    (hcap : 256 ^ 32 ≤ x ∨
      (x < 256 ^ 32 ∧ ∃ y p2, mbedtls_asn1_get_mpi buf p1 n = .ok (y, p2) ∧ 256 ^ 32 ≤ y)) :
    (ecdsa_asn1_get_signature (some buf) n (some rv) (some sv)).1 =
      MBEDTLS_ERR_MPI_BUFFER_TOO_SMALL
    ∧ MBEDTLS_ERR_MPI_BUFFER_TOO_SMALL ≠ (0 : Int) := by
  constructor
  · rcases hcap with hx | ⟨hx, y, p2, h3, hy⟩
    · simp only [ecdsa_asn1_get_signature, if_neg hn, h1, h2, mbedtls_mpi_write_binary,
        if_pos hx]
    · simp only [ecdsa_asn1_get_signature, if_neg hn, h1, h2, h3, mbedtls_mpi_write_binary,
        if_neg (Nat.not_le.mpr hx), if_pos hy]
  · decide

/-- Witness for C3: a SEQUENCE whose first INTEGER has 33 magnitude bytes
(`0x01` then 32 zero bytes, the value `256^32`) draws the capacity
failure. -/
theorem claim_C3_witness :
    (ecdsa_asn1_get_signature (some ([0x30, 0x23, 0x02, 0x21, 0x01] ++ List.replicate 32 0)) 37
      (some (List.replicate 32 0)) (some (List.replicate 32 0))).1 =
      MBEDTLS_ERR_MPI_BUFFER_TOO_SMALL
    ∧ MBEDTLS_ERR_MPI_BUFFER_TOO_SMALL ≠ (0 : Int) :=
  claim_C3 ([0x30, 0x23, 0x02, 0x21, 0x01] ++ List.replicate 32 0) 37
    (List.replicate 32 0) (List.replicate 32 0) 0x23 2 (256 ^ 32) 37
    (by decide) (by rfl) (by rfl) (Or.inl le_rfl)

/-- C10: when any pointer argument is null or `signaturelen` is zero,
`ecdsa_asn1_get_signature` returns `1` and both output buffers are exactly
as the caller supplied them. -/
theorem claim_C10 :
    ∀ (sig : Option (List Nat)) (n : Nat) (rv sv : Option (List Nat)),
      (sig = none ∨ n = 0 ∨ rv = none ∨ sv = none) →
      ecdsa_asn1_get_signature sig n rv sv = (1, rv, sv) := by
  intro sig n rv sv h
  rcases sig with _ | s <;> rcases rv with _ | r <;> rcases sv with _ | v
  all_goals
    first
      | rfl
      | (rcases h with h | h | h | h
         · exact absurd h (by simp)
         · subst h
           rfl
         · exact absurd h (by simp)
         · exact absurd h (by simp))

/-- Witness for C10: `signaturelen = 0` returns `1` with both buffers
untouched. -/
theorem claim_C10_witness :
    ecdsa_asn1_get_signature (some [0x30]) 0 (some [1, 2]) (some [3]) =
      (1, some [1, 2], some [3]) :=
  claim_C10 (some [0x30]) 0 (some [1, 2]) (some [3]) (Or.inr (Or.inl rfl))
